import Mathlib

/-!
Verification development for the userbot forwarder
(`src/userbot_forwarder.py`).

The Python module keeps two JSON-backed stores: a per-day map of senders
already relayed (`daily_messages.json`) and a duplicate-suppression store
with "ignored" and "collected" categories (`message_tracking.json`).  The
event handler `handle_new_message` decides, for each incoming private
message, whether to relay it to a fixed downstream bot.

Modelling conventions:
* Python dicts keyed by `str(user_id)` are modelled as association lists
  keyed by the numeric id itself (`str` is injective on the ids, so the
  observable behaviour is identical).
* `time.time()` timestamps are modelled as `Int` seconds.
* Human-readable formatted time strings (`time_formatted`, the `'time'`
  field of daily entries) carry no decision-relevant information; the
  daily entry stores the model clock directly and `time_formatted` is
  omitted.
* File IO is modelled by a `FileRead` oracle (missing / corrupt / ok) for
  loads and a boolean success oracle for saves, mirroring the
  `try/except` blocks that log and continue.
* The Telegram gateway (`forward_message_with_info`) is modelled by a
  boolean success oracle: the Python function catches every exception and
  reduces the outcome to `True`/`False`.
-/

/-- Python-dict lookup `k in d` / `d[k]` on an association list. -/
def lookupk {κ α : Type} [DecidableEq κ] : List (κ × α) → κ → Option α
  | [], _ => none
  | (k1, v) :: rest, k => if k1 = k then some v else lookupk rest k

/-- Python-dict assignment `d[k] = v` on an association list:
overwrite the existing binding or append a new one. -/
def setk {κ α : Type} [DecidableEq κ] : List (κ × α) → κ → α → List (κ × α)
  | [], k, v => [(k, v)]
  | (k1, v1) :: rest, k, v =>
    if k1 = k then (k, v) :: rest else (k1, v1) :: setk rest k v

theorem lookupk_setk {κ α : Type} [DecidableEq κ]
    (m : List (κ × α)) (k q : κ) (v : α) :
    lookupk (setk m k v) q = if k = q then some v else lookupk m q := by
  induction m with
  | nil =>
    simp [setk, lookupk]
  | cons hd tl ih =>
    obtain ⟨k1, v1⟩ := hd
    by_cases h1 : k1 = k
    · subst h1
      by_cases h2 : k1 = q <;> simp [setk, lookupk, h2]
    · by_cases h2 : k1 = q
      · subst h2
        have hk : ¬k = k1 := fun h => h1 h.symm
        simp [setk, lookupk, h1, hk]
      · simp [setk, lookupk, h1, h2, ih]

/-- Sender metadata as delivered by the client library.  The Python code
probes `first_name` / `last_name` / `username` with `hasattr` and
truthiness; an absent attribute and an empty string behave identically,
both are representable here (`none` / `some ""`). -/
structure Sender where
  id : Nat
  first_name : Option String
  last_name : Option String
  username : Option String
deriving DecidableEq

/-- Python truthiness of an optional string: `None` and `""` are falsy. -/
def pyTruthy : Option String → Bool
  | some s => !(s == "")
  | none => false

/-- Entry of `daily_messages.json` / `forwarded_today`
(`{'name': ..., 'time': ...}`); the formatted time string is modelled by
the clock value itself. -/
structure DailyEntry where
  name : String
  time : Int
deriving DecidableEq

/-- Entry of the `ignored` category of `message_tracking.json`. -/
structure IgnoredEntry where
  name : String
  timestamp : Int
  reason : String
deriving DecidableEq

/-- Entry of the `collected` category of `message_tracking.json`. -/
structure CollectedEntry where
  name : String
  timestamp : Int
deriving DecidableEq

/-- In-memory `self.message_tracking`: the two tracking categories. -/
structure MessageTracking where
  ignored : List (Nat × IgnoredEntry)
  collected : List (Nat × CollectedEntry)
deriving DecidableEq

/-- The mutable state of `UserbotForwarder` that the decision path reads
and writes: `self.forwarded_today` and `self.message_tracking`. -/
structure BotState where
  forwarded_today : List (Nat × DailyEntry)
  tracking : MessageTracking
deriving DecidableEq

/-- On-disk shape of `daily_messages.json`:
`{'date': ..., 'forwarded_users': ...}`. -/
structure DailyFile where
  date : String
  forwarded_users : List (Nat × DailyEntry)
deriving DecidableEq

/-- Result of attempting to read a persisted JSON file: the file may be
absent, unreadable/unparsable (any exception), or successfully parsed. -/
inductive FileRead (α : Type) where
  | missing
  | corrupt
  | ok (data : α)
deriving DecidableEq

/-- Python `str.strip()`: drop whitespace from both ends.  Stated
directly on the character list (`String.trim` is defined by well-founded
recursion and does not reduce definitionally, which would block
evaluation in proofs). -/
def pyStrip (s : String) : String :=
  String.mk (((s.data.dropWhile Char.isWhitespace).reverse.dropWhile Char.isWhitespace).reverse)

/-- `UserbotForwarder.build_sender_name`: join the truthy, stripped name
parts with spaces; append a parenthesized `@username` when present, or
use it alone; fall back to `"Unknown User"`. -/
def build_sender_name (sender : Sender) : String :=
  let name_parts : List String :=
    (match sender.first_name with
      | some s => if s == "" then [] else [pyStrip s]
      | none => []) ++
    (match sender.last_name with
      | some s => if s == "" then [] else [pyStrip s]
      | none => [])
  match sender.username with
  | some u =>
    if u == "" then
      (if name_parts.isEmpty then "Unknown User"
       else String.intercalate " " name_parts)
    else
      (if name_parts.isEmpty then "@" ++ u
       else String.intercalate " " name_parts ++ " (@" ++ u ++ ")")
  | none =>
    if name_parts.isEmpty then "Unknown User"
    else String.intercalate " " name_parts

/-- Does the character list start with (at least) three decimal digits?
This is exactly when the regex `\d{3,4}` matches at this position: the
optional fourth digit never affects whether a match exists. -/
def digitRunAt : List Char → Bool
  | a :: b :: c :: _ => a.isDigit && b.isDigit && c.isDigit
  | _ => false

/-- Model of `re.search(r'\d{3,4}', s) is not None`: scan every position
for a match of the pattern. -/
def reSearchD34 : List Char → Bool
  | [] => false
  | c :: rest => digitRunAt (c :: rest) || reSearchD34 rest

/-- `UserbotForwarder.should_forward_message`: require truthy text, then
accept when the display name contains a 3-4 digit run or the sender has
both a truthy first and last name. -/
def should_forward_message (text : Option String) (sender : Sender)
    (sender_name : String) : Bool :=
  if !(pyTruthy text) then false
  else
    let has_digits := reSearchD34 sender_name.data
    let has_full_name := pyTruthy sender.first_name && pyTruthy sender.last_name
    has_digits || has_full_name

/-- `UserbotForwarder.has_forwarded_today`:
`str(user_id) in self.forwarded_today`. -/
def has_forwarded_today (forwarded : List (Nat × DailyEntry)) (user_id : Nat) : Bool :=
  (lookupk forwarded user_id).isSome

/-- `UserbotForwarder.mark_as_forwarded` (in-memory effect): upsert the
sender's daily record with the current time.  The method then calls
`save_daily_messages`; persistence is modelled separately
(`save_daily_messages` below). -/
def mark_as_forwarded (forwarded : List (Nat × DailyEntry)) (user_id : Nat)
    (sender_name : String) (now : Int) : List (Nat × DailyEntry) :=
  setk forwarded user_id { name := sender_name, time := now }

/-- `UserbotForwarder.track_ignored_message` (in-memory effect): no-op
when `DUPLICATE_CHECK_ENABLED` is false, otherwise upsert into the
`ignored` category with the current time and the reason. -/
def track_ignored_message (enabled : Bool) (now : Int) (mt : MessageTracking)
    (user_id : Nat) (sender_name reason : String) : MessageTracking :=
  if !enabled then mt
  else
    let entry : IgnoredEntry := { name := sender_name, timestamp := now, reason := reason }
    { mt with ignored := setk mt.ignored user_id entry }

/-- `UserbotForwarder.track_collected_message` (in-memory effect): no-op
when `DUPLICATE_CHECK_ENABLED` is false, otherwise upsert into the
`collected` category with the current time. -/
def track_collected_message (enabled : Bool) (now : Int) (mt : MessageTracking)
    (user_id : Nat) (sender_name : String) : MessageTracking :=
  if !enabled then mt
  else
    let entry : CollectedEntry := { name := sender_name, timestamp := now }
    { mt with collected := setk mt.collected user_id entry }

/-- `UserbotForwarder.is_message_recently_handled`: false when tracking
is disabled; otherwise true when either category holds an entry for the
sender with `timestamp > now - DUPLICATE_IGNORE_DURATION`. -/
def is_message_recently_handled (enabled : Bool) (window now : Int)
    (mt : MessageTracking) (user_id : Nat) : Bool :=
  if !enabled then false
  else
    let cutoff := now - window
    (match lookupk mt.ignored user_id with
      | some e => decide (cutoff < e.timestamp)
      | none => false) ||
    (match lookupk mt.collected user_id with
      | some e => decide (cutoff < e.timestamp)
      | none => false)

/-- `UserbotForwarder.cleanup_old_tracking_data` (in-memory effect):
no-op when tracking is disabled; otherwise keep, in each category,
exactly the entries with `timestamp > now - DUPLICATE_IGNORE_DURATION`.
The method then calls `save_message_tracking`; see `cleanup_world`. -/
def cleanup_old_tracking_data (enabled : Bool) (window now : Int)
    (mt : MessageTracking) : MessageTracking :=
  if !enabled then mt
  else
    { ignored := mt.ignored.filter (fun kv => decide (now - window < kv.2.timestamp)),
      collected := mt.collected.filter (fun kv => decide (now - window < kv.2.timestamp)) }

/-- `UserbotForwarder.load_daily_messages`: on a successful read, keep
the stored set only when the stored date equals today, otherwise start a
fresh day; a missing file or any read/parse error yields the empty set. -/
def load_daily_messages (today : String) : FileRead DailyFile → List (Nat × DailyEntry)
  | FileRead.ok d => if d.date = today then d.forwarded_users else []
  | FileRead.missing => []
  | FileRead.corrupt => []

/-- `UserbotForwarder.save_daily_messages`: the document written to
`daily_messages.json` — today's date together with the whole in-memory
set. -/
def save_daily_messages (today : String) (forwarded : List (Nat × DailyEntry)) : DailyFile :=
  { date := today, forwarded_users := forwarded }

/-- The Tracking Store contract `recordDailyForward(sender, name, now)`
as worded by the spec: if the stored date differs from today, reset the
daily set first, then insert/overwrite the sender's record, then
persist.  Stated from the spec's words, for comparison with the code's
`mark_as_forwarded` / `save_daily_messages` path. -/
def recordDailyForward_spec (stored : DailyFile) (today : String) (user_id : Nat)
    (sender_name : String) (now : Int) : DailyFile :=
  let base := if stored.date = today then stored.forwarded_users else []
  { date := today,
    forwarded_users := setk base user_id { name := sender_name, time := now } }

/-- `UserbotForwarder.load_message_tracking`: the parsed document when
the file exists and parses; the empty initial state
`{'ignored': {}, 'collected': {}}` on a missing file or any read/parse
error.  Total: no branch raises. -/
def load_message_tracking : FileRead MessageTracking → MessageTracking
  | FileRead.ok d => d
  | FileRead.missing => { ignored := [], collected := [] }
  | FileRead.corrupt => { ignored := [], collected := [] }

/-- In-memory tracking state paired with the last successfully persisted
copy of `message_tracking.json`. -/
structure TrackWorld where
  mem : MessageTracking
  file : MessageTracking
deriving DecidableEq

/-- `UserbotForwarder.save_message_tracking`: write the in-memory state
to disk; on a write error (`writeOk = false`) the error is logged and
swallowed, the file keeps its previous content and the in-memory state
is untouched either way. -/
def save_message_tracking (w : TrackWorld) (writeOk : Bool) : TrackWorld :=
  { mem := w.mem, file := if writeOk then w.mem else w.file }

/-- `UserbotForwarder.cleanup_old_tracking_data` including its final
`save_message_tracking()` call: when disabled it returns before touching
anything; when enabled it prunes in memory and then saves. -/
def cleanup_world (enabled : Bool) (window now : Int) (w : TrackWorld)
    (writeOk : Bool) : TrackWorld :=
  if !enabled then w
  else
    save_message_tracking
      { mem := cleanup_old_tracking_data enabled window now w.mem, file := w.file }
      writeOk

/-- Outcome of one `handle_new_message` call, naming the return path
taken. -/
inductive Outcome where
  | skipRecent
  | skipAlreadyForwarded
  | skipFilter
  | forwarded
  | forwardFailed
deriving DecidableEq

/-- Is the Delivery Gateway (`forward_message_with_info`) invoked on
this path?  Only the last two paths reach the `await` of the gateway. -/
def gatewayInvoked : Outcome → Bool
  | Outcome.forwarded => true
  | Outcome.forwardFailed => true
  | _ => false

/-- `UserbotForwarder.handle_new_message`, for an event whose sender is
available.  `sendOk` is the boolean reported by
`forward_message_with_info` (which catches every exception).  Checks in
source order: recently-handled (read-only), forwarded-today, filter,
then gateway; marking and collection happen only on gateway success. -/
def handle_new_message (enabled : Bool) (window : Int) (st : BotState)
    (sender : Sender) (text : Option String) (now : Int) (sendOk : Bool) :
    BotState × Outcome :=
  let sender_name := build_sender_name sender
  if is_message_recently_handled enabled window now st.tracking sender.id then
    (st, Outcome.skipRecent)
  else if has_forwarded_today st.forwarded_today sender.id then
    ({ st with tracking := track_ignored_message enabled now st.tracking sender.id sender_name "Already forwarded today" },
     Outcome.skipAlreadyForwarded)
  else if !(should_forward_message text sender sender_name) then
    ({ st with tracking := track_ignored_message enabled now st.tracking sender.id sender_name "Doesn't match forwarding criteria" },
     Outcome.skipFilter)
  else if sendOk then
    ({ forwarded_today := mark_as_forwarded st.forwarded_today sender.id sender_name now,
       tracking := track_collected_message enabled now st.tracking sender.id sender_name },
     Outcome.forwarded)
  else
    ({ st with tracking := track_ignored_message enabled now st.tracking sender.id sender_name "Forwarding failed" },
     Outcome.forwardFailed)

/-- One inbound private-message event: sender metadata, text, event
time, and the gateway's success oracle for this event. -/
structure Ev where
  sender : Sender
  text : Option String
  now : Int
  sendOk : Bool

/-- Process a list of events in arrival order within one run, recording
each event's sender id and outcome. -/
def runEvents (enabled : Bool) (window : Int) : BotState → List Ev → List (Nat × Outcome)
  | _, [] => []
  | st, e :: rest =>
    let r := handle_new_message enabled window st e.sender e.text e.now e.sendOk
    (e.sender.id, r.2) :: runEvents enabled window r.1 rest

/-- Number of successful relays for sender `S` in an outcome trace. -/
def countForwardedOf (S : Nat) : List (Nat × Outcome) → Nat
  | [] => 0
  | (uid, out) :: rest =>
    (if uid = S ∧ out = Outcome.forwarded then 1 else 0) + countForwardedOf S rest

/-- What one iteration of the `run_with_retry` loop observes.  `raised`
covers the `except Exception` path; its flag tells whether the shutdown
signal arrived during the 30-second backoff wait. -/
inductive IterEvent where
  | setupFail
  | ranThenShutdown
  | ranThenDisconnect
  | keyboardInterrupt
  | raised (shutdownDuringDelay : Bool)
deriving DecidableEq

/-- Why the `run_with_retry` loop ended (it always returns normally:
every branch of the loop body is wrapped in `try/except`). -/
inductive RunResult where
  | cleanShutdown
  | setupFailed
  | interrupted
  | retriesExhausted
  | shutdownDuringWait
  | loopConditionFalse
  | outOfEvents
deriving DecidableEq

/-- `UserbotForwarder.run_with_retry` over a finite horizon of iteration
observations.  `rc` is `self.retry_count` (0 at construction); it is
reset to 0 on a successful `setup_client`, incremented on the exception
path, and the loop gives up when the incremented count reaches
`max_retries`.  `outOfEvents` means the loop was still running past the
modelled horizon. -/
def run_with_retry (max_retries : Nat) : List IterEvent → Nat → RunResult
  | [], rc => if rc < max_retries then RunResult.outOfEvents else RunResult.loopConditionFalse
  | e :: rest, rc =>
    if rc < max_retries then
      match e with
      | IterEvent.setupFail => RunResult.setupFailed
      | IterEvent.ranThenShutdown => RunResult.cleanShutdown
      | IterEvent.ranThenDisconnect => run_with_retry max_retries rest 0
      | IterEvent.keyboardInterrupt => RunResult.interrupted
      | IterEvent.raised sd =>
        if rc + 1 < max_retries then
          (if sd then RunResult.shutdownDuringWait else run_with_retry max_retries rest (rc + 1))
        else RunResult.retriesExhausted
    else RunResult.loopConditionFalse

/-- `main()`: returns 1 when the API credentials or the bot username are
missing from the configuration; otherwise awaits `run_with_retry` —
which never raises — and returns 0 whatever the supervisor's outcome
was. -/
def main_exit (apiOk botOk : Bool) (evs : List IterEvent) : Nat :=
  if !apiOk then 1
  else if !botOk then 1
  else
    let result := run_with_retry 5 evs 0
    match result with
    | _ => 0

/-- The `__main__` block: `--stats` displays statistics and falls off the
end of the script (exit code 0); otherwise the process exits with
`main()`'s return value. -/
def process_exit (stats apiOk botOk : Bool) (evs : List IterEvent) : Nat :=
  if stats then 0 else main_exit apiOk botOk evs

/-- A sender with first and last name and no digits, as in the spec's
Scenario A. -/
def exSenderFullName : Sender :=
  { id := 7, first_name := some "John", last_name := some "Doe", username := none }

theorem handle_eq_recent (enabled : Bool) (window : Int) (st : BotState)
    (sender : Sender) (text : Option String) (now : Int) (sendOk : Bool)
    (h1 : is_message_recently_handled enabled window now st.tracking sender.id = true) :
    handle_new_message enabled window st sender text now sendOk = (st, Outcome.skipRecent) := by
  simp [handle_new_message, h1]

theorem handle_eq_already (enabled : Bool) (window : Int) (st : BotState)
    (sender : Sender) (text : Option String) (now : Int) (sendOk : Bool)
    (h1 : is_message_recently_handled enabled window now st.tracking sender.id = false)
    (h2 : has_forwarded_today st.forwarded_today sender.id = true) :
    handle_new_message enabled window st sender text now sendOk =
      ({ st with tracking := track_ignored_message enabled now st.tracking sender.id (build_sender_name sender) "Already forwarded today" },
       Outcome.skipAlreadyForwarded) := by
  simp [handle_new_message, h1, h2]

theorem handle_eq_filter (enabled : Bool) (window : Int) (st : BotState)
    (sender : Sender) (text : Option String) (now : Int) (sendOk : Bool)
    (h1 : is_message_recently_handled enabled window now st.tracking sender.id = false)
    (h2 : has_forwarded_today st.forwarded_today sender.id = false)
    (h3 : should_forward_message text sender (build_sender_name sender) = false) :
    handle_new_message enabled window st sender text now sendOk =
      ({ st with tracking := track_ignored_message enabled now st.tracking sender.id (build_sender_name sender) "Doesn't match forwarding criteria" },
       Outcome.skipFilter) := by
  simp [handle_new_message, h1, h2, h3]

theorem handle_eq_forwarded (enabled : Bool) (window : Int) (st : BotState)
    (sender : Sender) (text : Option String) (now : Int)
    (h1 : is_message_recently_handled enabled window now st.tracking sender.id = false)
    (h2 : has_forwarded_today st.forwarded_today sender.id = false)
    (h3 : should_forward_message text sender (build_sender_name sender) = true) :
    handle_new_message enabled window st sender text now true =
      ({ forwarded_today := mark_as_forwarded st.forwarded_today sender.id (build_sender_name sender) now,
         tracking := track_collected_message enabled now st.tracking sender.id (build_sender_name sender) },
       Outcome.forwarded) := by
  simp [handle_new_message, h1, h2, h3]

theorem handle_eq_failed (enabled : Bool) (window : Int) (st : BotState)
    (sender : Sender) (text : Option String) (now : Int)
    (h1 : is_message_recently_handled enabled window now st.tracking sender.id = false)
    (h2 : has_forwarded_today st.forwarded_today sender.id = false)
    (h3 : should_forward_message text sender (build_sender_name sender) = true) :
    handle_new_message enabled window st sender text now false =
      ({ st with tracking := track_ignored_message enabled now st.tracking sender.id (build_sender_name sender) "Forwarding failed" },
       Outcome.forwardFailed) := by
  simp [handle_new_message, h1, h2, h3]

/-- Exhaustive description of one `handle_new_message` call: either the
message is relayed — which requires that the sender was not yet in
today's set, and afterwards the sender is recorded there — or the daily
set is left untouched. -/
theorem handle_master (enabled : Bool) (window : Int) (st : BotState)
    (sender : Sender) (text : Option String) (now : Int) (sendOk : Bool) :
    ((handle_new_message enabled window st sender text now sendOk).2 = Outcome.forwarded ∧
      has_forwarded_today st.forwarded_today sender.id = false ∧
      (handle_new_message enabled window st sender text now sendOk).1.forwarded_today =
        mark_as_forwarded st.forwarded_today sender.id (build_sender_name sender) now) ∨
    ((handle_new_message enabled window st sender text now sendOk).2 ≠ Outcome.forwarded ∧
      (handle_new_message enabled window st sender text now sendOk).1.forwarded_today =
        st.forwarded_today) := by
  by_cases h1 : is_message_recently_handled enabled window now st.tracking sender.id = true
  · right
    rw [handle_eq_recent enabled window st sender text now sendOk h1]
    exact ⟨by simp, rfl⟩
  · rw [Bool.not_eq_true] at h1
    by_cases h2 : has_forwarded_today st.forwarded_today sender.id = true
    · right
      rw [handle_eq_already enabled window st sender text now sendOk h1 h2]
      exact ⟨by simp, rfl⟩
    · rw [Bool.not_eq_true] at h2
      by_cases h3 : should_forward_message text sender (build_sender_name sender) = true
      · cases sendOk with
        | true =>
          left
          rw [handle_eq_forwarded enabled window st sender text now h1 h2 h3]
          exact ⟨rfl, h2, rfl⟩
        | false =>
          right
          rw [handle_eq_failed enabled window st sender text now h1 h2 h3]
          exact ⟨by simp, rfl⟩
      · right
        rw [Bool.not_eq_true] at h3
        rw [handle_eq_filter enabled window st sender text now sendOk h1 h2 h3]
        exact ⟨by simp, rfl⟩

/-- Membership in the daily set is never lost during a run. -/
theorem hft_mono (enabled : Bool) (window : Int) (st : BotState)
    (sender : Sender) (text : Option String) (now : Int) (sendOk : Bool) (S : Nat)
    (h : has_forwarded_today st.forwarded_today S = true) :
    has_forwarded_today
      (handle_new_message enabled window st sender text now sendOk).1.forwarded_today S = true := by
  rcases handle_master enabled window st sender text now sendOk with ⟨_, _, heq⟩ | ⟨_, heq⟩
  · rw [heq]
    unfold has_forwarded_today mark_as_forwarded at *
    rw [lookupk_setk]
    by_cases hq : sender.id = S <;> simp [hq, h] at h ⊢
  · rw [heq]
    exact h

/-- A sender already in today's set can never reach the gateway. -/
theorem hft_no_gateway (enabled : Bool) (window : Int) (st : BotState)
    (sender : Sender) (text : Option String) (now : Int) (sendOk : Bool)
    (h : has_forwarded_today st.forwarded_today sender.id = true) :
    gatewayInvoked (handle_new_message enabled window st sender text now sendOk).2 = false := by
  by_cases h1 : is_message_recently_handled enabled window now st.tracking sender.id = true
  · rw [handle_eq_recent enabled window st sender text now sendOk h1]
    rfl
  · rw [Bool.not_eq_true] at h1
    rw [handle_eq_already enabled window st sender text now sendOk h1 h]
    rfl

/-- After a successful relay the sender is in today's set. -/
theorem hft_after_forward (enabled : Bool) (window : Int) (st : BotState)
    (sender : Sender) (text : Option String) (now : Int) (sendOk : Bool)
    (h : (handle_new_message enabled window st sender text now sendOk).2 = Outcome.forwarded) :
    has_forwarded_today
      (handle_new_message enabled window st sender text now sendOk).1.forwarded_today sender.id = true := by
  rcases handle_master enabled window st sender text now sendOk with ⟨_, _, heq⟩ | ⟨hne, _⟩
  · rw [heq]
    unfold has_forwarded_today mark_as_forwarded
    rw [lookupk_setk]
    simp
  · exact absurd h hne

theorem countForwardedOf_zero (enabled : Bool) (window : Int) (S : Nat) :
    ∀ (evs : List Ev) (st : BotState),
      has_forwarded_today st.forwarded_today S = true →
      countForwardedOf S (runEvents enabled window st evs) = 0 := by
  intro evs
  induction evs with
  | nil => intro st _; rfl
  | cons e rest ih =>
    intro st h
    show (if e.sender.id = S ∧ (handle_new_message enabled window st e.sender e.text e.now e.sendOk).2 = Outcome.forwarded then 1 else 0) +
      countForwardedOf S (runEvents enabled window (handle_new_message enabled window st e.sender e.text e.now e.sendOk).1 rest) = 0
    rw [ih _ (hft_mono enabled window st e.sender e.text e.now e.sendOk S h)]
    rw [if_neg, Nat.add_zero]
    rintro ⟨hid, hout⟩
    have hg := hft_no_gateway enabled window st e.sender e.text e.now e.sendOk (hid ▸ h)
    rw [hout] at hg
    exact Bool.noConfusion hg

theorem countForwardedOf_le_one (enabled : Bool) (window : Int) (S : Nat) :
    ∀ (evs : List Ev) (st : BotState),
      countForwardedOf S (runEvents enabled window st evs) ≤ 1 := by
  intro evs
  induction evs with
  | nil => intro st; exact Nat.zero_le 1
  | cons e rest ih =>
    intro st
    show (if e.sender.id = S ∧ (handle_new_message enabled window st e.sender e.text e.now e.sendOk).2 = Outcome.forwarded then 1 else 0) +
      countForwardedOf S (runEvents enabled window (handle_new_message enabled window st e.sender e.text e.now e.sendOk).1 rest) ≤ 1
    by_cases hc : e.sender.id = S ∧ (handle_new_message enabled window st e.sender e.text e.now e.sendOk).2 = Outcome.forwarded
    · rw [if_pos hc]
      have hS : has_forwarded_today (handle_new_message enabled window st e.sender e.text e.now e.sendOk).1.forwarded_today S = true := by
        rw [← hc.1]
        exact hft_after_forward enabled window st e.sender e.text e.now e.sendOk hc.2
      rw [countForwardedOf_zero enabled window S rest _ hS]
    · rw [if_neg hc, Nat.zero_add]
      exact ih _

theorem recently_of_ignored (window t2 : Int) (mt : MessageTracking) (uid : Nat)
    (e : IgnoredEntry) (hl : lookupk mt.ignored uid = some e)
    (ht : t2 - window < e.timestamp) :
    is_message_recently_handled true window t2 mt uid = true := by
  unfold is_message_recently_handled
  rw [hl]
  simp [ht]

theorem recently_of_collected (window t2 : Int) (mt : MessageTracking) (uid : Nat)
    (e : CollectedEntry) (hl : lookupk mt.collected uid = some e)
    (ht : t2 - window < e.timestamp) :
    is_message_recently_handled true window t2 mt uid = true := by
  unfold is_message_recently_handled
  rw [hl]
  simp [ht]

/-- With tracking enabled, every branch of `handle_new_message` other
than the recently-handled skip leaves an active tracking entry for the
sender, timestamped with the event time; hence the sender is seen as
recently handled at any instant less than one window later. -/
theorem recently_after_write (window t1 t2 : Int) (st : BotState) (s : Sender)
    (x : Option String) (ok : Bool)
    (h1 : is_message_recently_handled true window t1 st.tracking s.id = false)
    (hw : t2 - t1 < window) :
    is_message_recently_handled true window t2
      (handle_new_message true window st s x t1 ok).1.tracking s.id = true := by
  have htime : t2 - window < t1 := by omega
  have hignored : ∀ reason : String,
      lookupk (track_ignored_message true t1 st.tracking s.id (build_sender_name s) reason).ignored s.id
        = some { name := build_sender_name s, timestamp := t1, reason := reason } := by
    intro reason
    show lookupk (setk st.tracking.ignored s.id _) s.id = _
    rw [lookupk_setk]
    simp
  by_cases h2 : has_forwarded_today st.forwarded_today s.id = true
  · rw [handle_eq_already true window st s x t1 ok h1 h2]
    exact recently_of_ignored window t2 _ s.id _ (hignored "Already forwarded today") htime
  · rw [Bool.not_eq_true] at h2
    by_cases h3 : should_forward_message x s (build_sender_name s) = true
    · cases ok with
      | true =>
        rw [handle_eq_forwarded true window st s x t1 h1 h2 h3]
        have hcoll : lookupk (track_collected_message true t1 st.tracking s.id (build_sender_name s)).collected s.id
            = some { name := build_sender_name s, timestamp := t1 } := by
          show lookupk (setk st.tracking.collected s.id _) s.id = _
          rw [lookupk_setk]
          simp
        exact recently_of_collected window t2 _ s.id _ hcoll htime
      | false =>
        rw [handle_eq_failed true window st s x t1 h1 h2 h3]
        exact recently_of_ignored window t2 _ s.id _ (hignored "Forwarding failed") htime
    · rw [Bool.not_eq_true] at h3
      rw [handle_eq_filter true window st s x t1 ok h1 h2 h3]
      exact recently_of_ignored window t2 _ s.id _ (hignored "Doesn't match forwarding criteria") htime

/-- The display name contains (at least) three consecutive decimal
digits somewhere. -/
def containsThreeConsecutiveDigits (s : List Char) : Prop :=
  ∃ pre a b c post, s = pre ++ a :: b :: c :: post ∧
    a.isDigit = true ∧ b.isDigit = true ∧ c.isDigit = true

/-- The regex search `re.search(r'\d{3,4}', s)` succeeds exactly when
the string contains three consecutive decimal digits: a longer run (4,
5, ... digits) also contains three consecutive ones, and a run of at
most 2 digits never matches. -/
theorem reSearchD34_iff (s : List Char) :
    reSearchD34 s = true ↔ containsThreeConsecutiveDigits s := by
  constructor
  · intro h
    induction s with
    | nil => exact absurd h (by simp [reSearchD34])
    | cons c rest ih =>
      rw [reSearchD34, Bool.or_eq_true] at h
      rcases h with h | h
      · match rest, h with
        | b :: c3 :: tail, h =>
          rw [digitRunAt, Bool.and_eq_true, Bool.and_eq_true] at h
          exact ⟨[], c, b, c3, tail, rfl, h.1.1, h.1.2, h.2⟩
      · obtain ⟨pre, a, b, c3, post, heq, ha, hb, hc⟩ := ih h
        exact ⟨c :: pre, a, b, c3, post, by rw [heq]; rfl, ha, hb, hc⟩
  · rintro ⟨pre, a, b, c3, post, heq, ha, hb, hc⟩
    subst heq
    induction pre with
    | nil =>
      simp [reSearchD34, digitRunAt, ha, hb, hc]
    | cons p pre ih =>
      show reSearchD34 (p :: (pre ++ a :: b :: c3 :: post)) = true
      rw [reSearchD34, ih, Bool.or_true]

/-- C1: For every sender S, at most one successful relay occurs per
calendar date: over any event trace of a run (the daily set is never
reset within a run), S accumulates at most one `forwarded` outcome;
moreover the daily set is only written on a successful delivery, and an
event whose sender is already in today's set is skipped before the
Delivery Gateway is invoked. -/
theorem C1_at_most_one_relay_per_day :
    (∀ (enabled : Bool) (window : Int) (st : BotState) (evs : List Ev) (S : Nat),
      countForwardedOf S (runEvents enabled window st evs) ≤ 1) ∧
    (∀ (enabled : Bool) (window : Int) (st : BotState) (sender : Sender)
      (text : Option String) (now : Int) (sendOk : Bool),
      (handle_new_message enabled window st sender text now sendOk).2 ≠ Outcome.forwarded →
      (handle_new_message enabled window st sender text now sendOk).1.forwarded_today =
        st.forwarded_today) ∧
    (∀ (enabled : Bool) (window : Int) (st : BotState) (sender : Sender)
      (text : Option String) (now : Int) (sendOk : Bool),
      has_forwarded_today st.forwarded_today sender.id = true →
      gatewayInvoked (handle_new_message enabled window st sender text now sendOk).2 = false) := by
  refine ⟨fun enabled window st evs S => countForwardedOf_le_one enabled window S evs st, ?_, ?_⟩
  · intro enabled window st sender text now sendOk hne
    rcases handle_master enabled window st sender text now sendOk with ⟨h, _, _⟩ | ⟨_, heq⟩
    · exact absurd h hne
    · exact heq
  · intro enabled window st sender text now sendOk h
    exact hft_no_gateway enabled window st sender text now sendOk h

theorem C1_at_most_one_relay_per_day_witness :
    countForwardedOf 7 (runEvents true 3600
      { forwarded_today := [], tracking := { ignored := [], collected := [] } }
      [{ sender := exSenderFullName, text := some "hi", now := 0, sendOk := true },
       { sender := exSenderFullName, text := some "hi", now := 10, sendOk := true }]) ≤ 1 ∧
    gatewayInvoked (handle_new_message true 3600
      { forwarded_today := [(7, { name := "John Doe", time := 0 })],
        tracking := { ignored := [], collected := [] } }
      exSenderFullName (some "hi") 10 true).2 = false := by
  exact ⟨C1_at_most_one_relay_per_day.1 true 3600 _ _ 7,
    C1_at_most_one_relay_per_day.2.2 true 3600 _ exSenderFullName (some "hi") 10 true (by decide)⟩

/-- C3: With tracking enabled, the checks apply in fixed first-match-wins
order: (1) recently-handled skips and leaves the entire state (daily set
and both tracking categories) unchanged; (2) already-forwarded-today
skips and upserts an ignored entry; (3) filter failure skips and upserts
an ignored entry; (4) otherwise the gateway is invoked. -/
theorem C3_decision_order (window : Int) (st : BotState) (sender : Sender)
    (text : Option String) (now : Int) (sendOk : Bool) :
    (is_message_recently_handled true window now st.tracking sender.id = true →
      handle_new_message true window st sender text now sendOk = (st, Outcome.skipRecent)) ∧
    (is_message_recently_handled true window now st.tracking sender.id = false →
      has_forwarded_today st.forwarded_today sender.id = true →
      handle_new_message true window st sender text now sendOk =
        ({ st with tracking := { st.tracking with ignored := setk st.tracking.ignored sender.id ({ name := build_sender_name sender, timestamp := now, reason := "Already forwarded today" }) } },
         Outcome.skipAlreadyForwarded)) ∧
    (is_message_recently_handled true window now st.tracking sender.id = false →
      has_forwarded_today st.forwarded_today sender.id = false →
      should_forward_message text sender (build_sender_name sender) = false →
      handle_new_message true window st sender text now sendOk =
        ({ st with tracking := { st.tracking with ignored := setk st.tracking.ignored sender.id ({ name := build_sender_name sender, timestamp := now, reason := "Doesn't match forwarding criteria" }) } },
         Outcome.skipFilter)) ∧
    (is_message_recently_handled true window now st.tracking sender.id = false →
      has_forwarded_today st.forwarded_today sender.id = false →
      should_forward_message text sender (build_sender_name sender) = true →
      gatewayInvoked (handle_new_message true window st sender text now sendOk).2 = true) := by
  refine ⟨?_, ?_, ?_, ?_⟩
  · intro h1
    exact handle_eq_recent true window st sender text now sendOk h1
  · intro h1 h2
    rw [handle_eq_already true window st sender text now sendOk h1 h2]
    rfl
  · intro h1 h2 h3
    rw [handle_eq_filter true window st sender text now sendOk h1 h2 h3]
    rfl
  · intro h1 h2 h3
    cases sendOk with
    | true => rw [handle_eq_forwarded true window st sender text now h1 h2 h3]; rfl
    | false => rw [handle_eq_failed true window st sender text now h1 h2 h3]; rfl

theorem C3_decision_order_witness :
    handle_new_message true 3600
      { forwarded_today := [(7, { name := "John Doe", time := 0 })],
        tracking := { ignored := [], collected := [] } }
      exSenderFullName (some "hi") 10 true =
      ({ forwarded_today := [(7, { name := "John Doe", time := 0 })],
         tracking := { ignored := [(7, { name := "John Doe", timestamp := 10, reason := "Already forwarded today" })], collected := [] } },
       Outcome.skipAlreadyForwarded) := by
  have h := (C3_decision_order 3600
    { forwarded_today := [(7, { name := "John Doe", time := 0 })],
      tracking := { ignored := [], collected := [] } }
    exSenderFullName (some "hi") 10 true).2.1 (by decide) (by decide)
  rw [h]
  decide

/-- C5: With tracking enabled, two events from the same sender arriving
strictly within one retention window of each other produce at most one
Delivery Gateway invocation in total, whatever category the first event
landed in: every first event other than a recently-handled skip writes
an entry timestamped with its own event time, so the second event is
stopped by the recently-handled check; a recently-handled first event
makes no attempt itself. -/
theorem C5_single_attempt_within_window (window : Int) (st : BotState)
    (s1 s2 : Sender) (x1 x2 : Option String) (t1 t2 : Int) (ok1 ok2 : Bool)
    (hid : s2.id = s1.id) (hw : t2 - t1 < window) :
    (if gatewayInvoked (handle_new_message true window st s1 x1 t1 ok1).2 = true then 1 else 0) +
    (if gatewayInvoked (handle_new_message true window
        (handle_new_message true window st s1 x1 t1 ok1).1 s2 x2 t2 ok2).2 = true then 1 else 0) ≤ 1 := by
  have hle : ∀ o : Outcome, (if gatewayInvoked o = true then (1 : Nat) else 0) ≤ 1 := by
    intro o
    by_cases h : gatewayInvoked o = true
    · rw [if_pos h]
    · rw [if_neg h]
      exact Nat.zero_le 1
  by_cases h1 : is_message_recently_handled true window t1 st.tracking s1.id = true
  · rw [handle_eq_recent true window st s1 x1 t1 ok1 h1]
    have h0 : (if gatewayInvoked (st, Outcome.skipRecent).2 = true then (1 : Nat) else 0) = 0 := by
      simp [gatewayInvoked]
    rw [h0, Nat.zero_add]
    exact hle _
  · rw [Bool.not_eq_true] at h1
    have h2 : is_message_recently_handled true window t2
        (handle_new_message true window st s1 x1 t1 ok1).1.tracking s2.id = true := by
      rw [hid]
      exact recently_after_write window t1 t2 st s1 x1 ok1 h1 hw
    rw [handle_eq_recent true window _ s2 x2 t2 ok2 h2]
    have h0 : (if gatewayInvoked ((handle_new_message true window st s1 x1 t1 ok1).1, Outcome.skipRecent).2 = true then (1 : Nat) else 0) = 0 := by
      simp [gatewayInvoked]
    rw [h0, Nat.add_zero]
    exact hle _

theorem C5_single_attempt_within_window_witness :
    (if gatewayInvoked (handle_new_message true 3600
        { forwarded_today := [], tracking := { ignored := [], collected := [] } }
        exSenderFullName (some "hi") 0 true).2 = true then 1 else 0) +
    (if gatewayInvoked (handle_new_message true 3600
        (handle_new_message true 3600
          { forwarded_today := [], tracking := { ignored := [], collected := [] } }
          exSenderFullName (some "hi") 0 true).1
        exSenderFullName (some "hi") 1800 true).2 = true then 1 else 0) ≤ 1 := by
  exact C5_single_attempt_within_window 3600
    { forwarded_today := [], tracking := { ignored := [], collected := [] } }
    exSenderFullName exSenderFullName (some "hi") (some "hi") 0 1800 true true rfl (by decide)

theorem no_skipAlready_of_not_hft (enabled : Bool) (window : Int) (st : BotState)
    (sender : Sender) (text : Option String) (now : Int) (sendOk : Bool)
    (h : has_forwarded_today st.forwarded_today sender.id = false) :
    (handle_new_message enabled window st sender text now sendOk).2 ≠ Outcome.skipAlreadyForwarded := by
  by_cases h1 : is_message_recently_handled enabled window now st.tracking sender.id = true
  · rw [handle_eq_recent enabled window st sender text now sendOk h1]
    simp
  · rw [Bool.not_eq_true] at h1
    by_cases h3 : should_forward_message text sender (build_sender_name sender) = true
    · cases sendOk with
      | true => rw [handle_eq_forwarded enabled window st sender text now h1 h h3]; simp
      | false => rw [handle_eq_failed enabled window st sender text now h1 h h3]; simp
    · rw [Bool.not_eq_true] at h3
      rw [handle_eq_filter enabled window st sender text now sendOk h1 h h3]
      simp

/-- C6: When the gateway reports failure, the sender is not marked as
forwarded today, an ignored entry with reason "Forwarding failed" and
the event's timestamp is recorded, and any subsequent event from the
same sender is never stopped by the already-forwarded-today check (it
can only be stopped by the recently-handled check while the failure
entry is active). -/
theorem C6_forward_failure (window : Int) (st : BotState) (sender : Sender)
    (x : Option String) (t1 : Int)
    (h1 : is_message_recently_handled true window t1 st.tracking sender.id = false)
    (h2 : has_forwarded_today st.forwarded_today sender.id = false)
    (h3 : should_forward_message x sender (build_sender_name sender) = true) :
    (handle_new_message true window st sender x t1 false).2 = Outcome.forwardFailed ∧
    has_forwarded_today
      (handle_new_message true window st sender x t1 false).1.forwarded_today sender.id = false ∧
    lookupk (handle_new_message true window st sender x t1 false).1.tracking.ignored sender.id =
      some { name := build_sender_name sender, timestamp := t1, reason := "Forwarding failed" } ∧
    (∀ (s2 : Sender) (x2 : Option String) (t2 : Int) (ok2 : Bool), s2.id = sender.id →
      (handle_new_message true window (handle_new_message true window st sender x t1 false).1
        s2 x2 t2 ok2).2 ≠ Outcome.skipAlreadyForwarded) := by
  rw [handle_eq_failed true window st sender x t1 h1 h2 h3]
  refine ⟨rfl, h2, ?_, ?_⟩
  · show lookupk (setk st.tracking.ignored sender.id _) sender.id = _
    rw [lookupk_setk]
    simp
  · intro s2 x2 t2 ok2 hid
    refine no_skipAlready_of_not_hft true window _ s2 x2 t2 ok2 ?_
    show has_forwarded_today st.forwarded_today s2.id = false
    rw [hid]
    exact h2

theorem C6_forward_failure_witness :
    (handle_new_message true 3600
      { forwarded_today := [], tracking := { ignored := [], collected := [] } }
      exSenderFullName (some "hi") 0 false).2 = Outcome.forwardFailed ∧
    has_forwarded_today (handle_new_message true 3600
      { forwarded_today := [], tracking := { ignored := [], collected := [] } }
      exSenderFullName (some "hi") 0 false).1.forwarded_today exSenderFullName.id = false ∧
    lookupk (handle_new_message true 3600
      { forwarded_today := [], tracking := { ignored := [], collected := [] } }
      exSenderFullName (some "hi") 0 false).1.tracking.ignored exSenderFullName.id =
      some { name := build_sender_name exSenderFullName, timestamp := 0, reason := "Forwarding failed" } ∧
    (handle_new_message true 3600
      (handle_new_message true 3600
        { forwarded_today := [], tracking := { ignored := [], collected := [] } }
        exSenderFullName (some "hi") 0 false).1
      exSenderFullName (some "hi") 100 true).2 ≠ Outcome.skipAlreadyForwarded := by
  have h := C6_forward_failure 3600
    { forwarded_today := [], tracking := { ignored := [], collected := [] } }
    exSenderFullName (some "hi") 0 (by decide) (by decide) (by decide)
  exact ⟨h.1, h.2.1, h.2.2.1, h.2.2.2 exSenderFullName (some "hi") 100 true rfl⟩

/-- C2 counterexample: with the in-memory daily set holding an entry
recorded under stored date 2026-10-11, the code's record operation
(`mark_as_forwarded` followed by `save_daily_messages`) on 2026-10-12
keeps the old entry and stamps the new date over it, whereas the claimed
reset-then-insert operation discards it: the results differ. -/
theorem C2_counterexample :
    save_daily_messages "2026-10-12"
      (mark_as_forwarded [(1, { name := "Alice", time := 100 })] 2 "Bob" 200) ≠
    recordDailyForward_spec
      { date := "2026-10-11", forwarded_users := [(1, { name := "Alice", time := 100 })] }
      "2026-10-12" 2 "Bob" 200 := by
  decide

/-- C2 (amended): the reset on a date change is performed only at load
time: `load_daily_messages` returns the stored set exactly when the
stored date equals today and the empty set otherwise, while
`mark_as_forwarded` never consults the stored date — it unconditionally
upserts and `save_daily_messages` stamps today's date over the whole
in-memory set.  The claimed reset-then-insert contract therefore holds
precisely for the load-then-mark composition (fresh start of a day), not
for the record operation alone. -/
theorem C2_reset_at_load_only :
    (∀ (f : DailyFile) (today : String) (uid : Nat) (nm : String) (now : Int),
      save_daily_messages today
        (mark_as_forwarded (load_daily_messages today (FileRead.ok f)) uid nm now) =
      recordDailyForward_spec f today uid nm now) ∧
    (∀ (mem : List (Nat × DailyEntry)) (today : String) (uid : Nat) (nm : String) (now : Int),
      save_daily_messages today (mark_as_forwarded mem uid nm now) =
        { date := today, forwarded_users := setk mem uid { name := nm, time := now } }) ∧
    (∀ (f : DailyFile) (today : String),
      load_daily_messages today (FileRead.ok f) =
        if f.date = today then f.forwarded_users else []) := by
  exact ⟨fun f today uid nm now => rfl, fun mem today uid nm now => rfl,
    fun f today => rfl⟩

/-- C4: The filter accepts iff the message text is truthy (non-empty)
and either the constructed display name contains three consecutive
decimal digits (substring match, so longer runs also qualify) or the
sender has both a truthy first and last name; concretely, a sender whose
name has only a 2-digit run and no last name is rejected, and one with a
5-digit run and no last name is accepted. -/
theorem C4_filter_criteria :
    (∀ (text : Option String) (sender : Sender),
      should_forward_message text sender (build_sender_name sender) = true ↔
        (pyTruthy text = true ∧
          (containsThreeConsecutiveDigits (build_sender_name sender).data ∨
            (pyTruthy sender.first_name && pyTruthy sender.last_name) = true))) ∧
    should_forward_message (some "hi")
      { id := 1, first_name := some "Ann12", last_name := none, username := none }
      (build_sender_name { id := 1, first_name := some "Ann12", last_name := none, username := none }) = false ∧
    should_forward_message (some "hi")
      { id := 2, first_name := some "Ann12345", last_name := none, username := none }
      (build_sender_name { id := 2, first_name := some "Ann12345", last_name := none, username := none }) = true := by
  refine ⟨?_, by decide, by decide⟩
  intro text sender
  rw [← reSearchD34_iff]
  unfold should_forward_message
  cases h : pyTruthy text with
  | false => simp [h]
  | true => simp [h]

/-- C7: With tracking enabled, pruning keeps in each category exactly
the entries with `now - timestamp < window` and removes exactly those
with `now - timestamp ≥ window`; at the boundary an entry aged exactly
one window is removed while one a second younger is kept; the pruned
state is then persisted. -/
theorem C7_prune_exact :
    (∀ (window now : Int) (mt : MessageTracking) (k : Nat) (e : IgnoredEntry),
      ((k, e) ∈ (cleanup_old_tracking_data true window now mt).ignored ↔
        ((k, e) ∈ mt.ignored ∧ now - e.timestamp < window))) ∧
    (∀ (window now : Int) (mt : MessageTracking) (k : Nat) (e : CollectedEntry),
      ((k, e) ∈ (cleanup_old_tracking_data true window now mt).collected ↔
        ((k, e) ∈ mt.collected ∧ now - e.timestamp < window))) ∧
    (∀ (window now : Int) (w : TrackWorld),
      (cleanup_world true window now w true).file = cleanup_old_tracking_data true window now w.mem ∧
      (cleanup_world true window now w true).mem = cleanup_old_tracking_data true window now w.mem) ∧
    cleanup_old_tracking_data true 100 1000
      { ignored := [(1, { name := "A", timestamp := 900, reason := "r" })],
        collected := [(2, { name := "B", timestamp := 901 })] } =
      { ignored := [], collected := [(2, { name := "B", timestamp := 901 })] } := by
  refine ⟨?_, ?_, fun window now w => ⟨rfl, rfl⟩, by decide⟩
  · intro window now mt k e
    unfold cleanup_old_tracking_data
    simp only [Bool.not_true, Bool.false_eq_true, if_false, List.mem_filter, decide_eq_true_eq]
    constructor
    · rintro ⟨h1, h2⟩
      exact ⟨h1, by omega⟩
    · rintro ⟨h1, h2⟩
      exact ⟨h1, by omega⟩
  · intro window now mt k e
    unfold cleanup_old_tracking_data
    simp only [Bool.not_true, Bool.false_eq_true, if_false, List.mem_filter, decide_eq_true_eq]
    constructor
    · rintro ⟨h1, h2⟩
      exact ⟨h1, by omega⟩
    · rintro ⟨h1, h2⟩
      exact ⟨h1, by omega⟩

/-- C8 counterexample: five consecutive exception iterations exhaust the
retry budget, and a setup/authentication failure aborts the supervisor —
yet in both cases `main()` still returns 0 and the process exits with
code 0, contradicting the claimed non-zero exit on fatal outcomes. -/
theorem C8_counterexample :
    run_with_retry 5 [IterEvent.raised false, IterEvent.raised false, IterEvent.raised false,
      IterEvent.raised false, IterEvent.raised false] 0 = RunResult.retriesExhausted ∧
    process_exit false true true [IterEvent.raised false, IterEvent.raised false,
      IterEvent.raised false, IterEvent.raised false, IterEvent.raised false] = 0 ∧
    run_with_retry 5 [IterEvent.setupFail] 0 = RunResult.setupFailed ∧
    process_exit false true true [IterEvent.setupFail] = 0 := by
  decide

/-- C8 (amended): the process exits 0 on stats display and on every
return of the supervisor — clean shutdown, keyboard interrupt, setup
failure, and retry exhaustion alike — because `run_with_retry` swallows
all of its errors and `main()` returns 0 whenever it returns; exit code
1 occurs only when the API credentials or the bot username are missing
from the configuration. -/
theorem C8_exit_codes :
    (∀ (a b : Bool) (evs : List IterEvent), process_exit true a b evs = 0) ∧
    (∀ (b : Bool) (evs : List IterEvent), main_exit false b evs = 1) ∧
    (∀ (evs : List IterEvent), main_exit true false evs = 1) ∧
    (∀ (evs : List IterEvent), main_exit true true evs = 0) := by
  exact ⟨fun a b evs => rfl, fun b evs => rfl, fun evs => rfl, fun evs => rfl⟩

/-- C9: loading the tracking store returns the persisted state when the
file exists and parses, and the empty initial state (both categories
empty) on a missing file or parse failure, never raising; the daily
load likewise starts empty on a missing/corrupt file; a failed save is
swallowed — the in-memory state is unchanged by any save, and the file
is updated only on a successful write. -/
theorem C9_load_save_resilience :
    (∀ d : MessageTracking, load_message_tracking (FileRead.ok d) = d) ∧
    load_message_tracking FileRead.missing = { ignored := [], collected := [] } ∧
    load_message_tracking FileRead.corrupt = { ignored := [], collected := [] } ∧
    (∀ today : String, load_daily_messages today FileRead.missing = [] ∧
      load_daily_messages today FileRead.corrupt = []) ∧
    (∀ (w : TrackWorld) (ok : Bool), (save_message_tracking w ok).mem = w.mem) ∧
    (∀ w : TrackWorld, (save_message_tracking w false).file = w.file) ∧
    (∀ w : TrackWorld, (save_message_tracking w true).file = w.mem) := by
  exact ⟨fun d => rfl, rfl, rfl, fun today => ⟨rfl, rfl⟩, fun w ok => rfl,
    fun w => rfl, fun w => rfl⟩

/-- First event of the tracking-disabled repeated-delivery scenario: a
full-name sender's message is relayed on 2026-10-11 at model time 100
with tracking disabled. -/
def c10FirstPass : BotState × Outcome :=
  handle_new_message false 3600
    { forwarded_today := [], tracking := { ignored := [], collected := [] } }
    exSenderFullName (some "hi") 100 true

/-- State after a restart on the next date: the daily file carries the
previous date, so the daily load resets, while the tracking store is
unchanged. -/
def c10SecondState : BotState :=
  { forwarded_today := load_daily_messages "2026-10-12" (FileRead.ok { date := "2026-10-11", forwarded_users := c10FirstPass.1.forwarded_today }),
    tracking := c10FirstPass.1.tracking }

/-- C10 (implicit): with tracking disabled, the recently-handled query
is constantly false, recording ignored/collected entries and pruning are
no-ops, the decision reduces to the forwarded-today check plus the
filter, and repeated delivery within one retention window becomes
possible (two deliveries 100 model-seconds apart across a date
rollover). -/
theorem C10_tracking_disabled :
    (∀ (window now : Int) (mt : MessageTracking) (uid : Nat),
      is_message_recently_handled false window now mt uid = false) ∧
    (∀ (now : Int) (mt : MessageTracking) (uid : Nat) (nm r : String),
      track_ignored_message false now mt uid nm r = mt) ∧
    (∀ (now : Int) (mt : MessageTracking) (uid : Nat) (nm : String),
      track_collected_message false now mt uid nm = mt) ∧
    (∀ (window now : Int) (mt : MessageTracking),
      cleanup_old_tracking_data false window now mt = mt) ∧
    (∀ (window : Int) (st : BotState) (sender : Sender) (text : Option String) (now : Int) (ok : Bool),
      (handle_new_message false window st sender text now ok).2 =
        (if has_forwarded_today st.forwarded_today sender.id then Outcome.skipAlreadyForwarded
         else if !(should_forward_message text sender (build_sender_name sender)) then Outcome.skipFilter
         else if ok then Outcome.forwarded else Outcome.forwardFailed)) ∧
    (c10FirstPass.2 = Outcome.forwarded ∧
      (handle_new_message false 3600 c10SecondState exSenderFullName (some "hi") 200 true).2 =
        Outcome.forwarded) := by
  refine ⟨fun window now mt uid => rfl, fun now mt uid nm r => rfl,
    fun now mt uid nm => rfl, fun window now mt => rfl, ?_, by decide⟩
  intro window st sender text now ok
  by_cases h2 : has_forwarded_today st.forwarded_today sender.id = true
  · rw [handle_eq_already false window st sender text now ok rfl h2]
    simp [h2]
  · rw [Bool.not_eq_true] at h2
    by_cases h3 : should_forward_message text sender (build_sender_name sender) = true
    · cases ok with
      | true =>
        rw [handle_eq_forwarded false window st sender text now rfl h2 h3]
        simp [h2, h3]
      | false =>
        rw [handle_eq_failed false window st sender text now rfl h2 h3]
        simp [h2, h3]
    · rw [Bool.not_eq_true] at h3
      rw [handle_eq_filter false window st sender text now ok rfl h2 h3]
      simp [h2, h3]
